import Mathlib

set_option maxHeartbeats 1000000

/-!
Shallow embedding of the core of the wazuh-rust-tui repository:
the filter compiler (src/app/filter.rs), the search query builders and
domain operations of the API gateway (src/api/mod.rs), and the state
reducer drain loop (src/main.rs).  Strings are modelled with Lean
strings; `to_lowercase`, `split_whitespace`, `trim` and `contains` are
modelled on their ASCII behaviour, which coincides with Rust's on all
inputs appearing in the development.  Machine integers (`u32`) are
modelled as `Nat` with explicit range checks where overflow matters.
-/

namespace WazuhTui

/-- ASCII model of Rust `str::to_lowercase`. -/
def lowerStr (s : String) : String := String.mk (s.toList.map Char.toLower)

/-- Model of Rust `str::contains`: `pat` occurs as a contiguous substring
of `hay` (true for the empty pattern, as in Rust). -/
def strContains (hay pat : String) : Bool := decide (pat.toList <:+: hay.toList)

/-- Split a character list at every character satisfying `p`, keeping
empty pieces (the semantics of Rust `str::split`). -/
def splitListBy (p : Char → Bool) : List Char → List (List Char)
  | [] => [[]]
  | c :: cs =>
    if p c then [] :: splitListBy p cs
    else
      match splitListBy p cs with
      | [] => [[c]]
      | w :: ws => (c :: w) :: ws

/-- Model of Rust `str::split_whitespace`: split at whitespace characters
and drop the empty pieces. -/
def splitWhitespace (s : String) : List String :=
  ((splitListBy Char.isWhitespace s.toList).map String.mk).filter (fun t => t ≠ "")

/-- Model of Rust `str::split(',')`: every piece between commas, empty
pieces included. -/
def splitCommas (s : String) : List String :=
  (splitListBy (fun c => c = ',') s.toList).map String.mk

/-- Model of Rust `str::split_once(':')`: everything before the first
colon and everything after it, or `none` when there is no colon. -/
def splitOnceColon (s : String) : Option (String × String) :=
  if s.toList.contains ':' then
    some (String.mk (s.toList.takeWhile (fun c => c ≠ ':')),
          String.mk ((s.toList.dropWhile (fun c => c ≠ ':')).tail))
  else none

/-- Model of Rust `str::parse::<u32>`: an optional leading `+`, then a
non-empty run of ASCII digits whose value fits in 32 bits. -/
def parseU32 (s : String) : Option Nat :=
  let cs := s.toList
  let ds := if cs.head? = some '+' then cs.tail else cs
  if ds ≠ [] ∧ ds.all Char.isDigit then
    let v := ds.foldl (fun a c => a * 10 + (c.toNat - 48)) 0
    if v < 2 ^ 32 then some v else none
  else none

/-- Model of Rust `str::trim` (ASCII whitespace stripped from both
ends). -/
def trimStr (s : String) : String :=
  String.mk (((s.toList.dropWhile Char.isWhitespace).reverse.dropWhile
    Char.isWhitespace).reverse)

/-! ## Data model (src/models/mod.rs) -/

/-- Embeds `models::WazuhOS`. -/
structure WazuhOS where
  name : Option String
  version : Option String
  platform : Option String
  arch : Option String
deriving DecidableEq, Repr

/-- Embeds `models::WazuhAgent`. -/
structure WazuhAgent where
  id : String
  name : String
  ip : Option String
  status : String
  version : Option String
  node_name : Option String
  group : Option (List String)
  date_add : Option String
  last_keep_alive : Option String
  os : Option WazuhOS
  manager : Option String
deriving DecidableEq, Repr

/-- Embeds `models::Config`. -/
structure Config where
  url : String
  username : String
  password : String
  os_url : Option String
  os_username : Option String
  os_password : Option String
deriving DecidableEq, Repr

/-! ## Filter compiler (src/app/filter.rs) -/

/-- Embeds `filter::FilterPredicate`. -/
inductive FilterPredicate where
  | name (s : String)
  | id (s : String)
  | ip (s : String)
  | status (s : String)
  | os (s : String)
  | severity (n : Nat)
  | global (s : String)
deriving DecidableEq, Repr

/-- Embeds `filter::AgentFilter`. -/
structure AgentFilter where
  predicates : List FilterPredicate
  raw_query : String
deriving DecidableEq, Repr

/-- The predicates contributed by one whitespace-delimited token of the
query string; the body of the `for` loop of `AgentFilter::parse`
(src/app/filter.rs lines 25-51), yielding zero or one predicates. -/
def tokenPredicates (part : String) : List FilterPredicate :=
  match splitOnceColon part with
  | some (field, value) =>
    match lowerStr field with
    | "name" => [.name (lowerStr value)]
    | "n" => [.name (lowerStr value)]
    | "id" => [.id (lowerStr value)]
    | "ip" => [.ip (lowerStr value)]
    | "status" => [.status (lowerStr value)]
    | "st" => [.status (lowerStr value)]
    | "os" => [.os (lowerStr value)]
    | "sev" => sevPredicates value
    | "s" => sevPredicates value
    | _ => [.global (lowerStr part)]
  | none => [.global (lowerStr part)]
where
  /-- The `"sev" | "s"` arm: named tiers first, then `u32` parsing,
  silently dropping values that fit neither. -/
  sevPredicates (value : String) : List FilterPredicate :=
    match lowerStr value with
    | "crit" => [.severity 12]
    | "critical" => [.severity 12]
    | "high" => [.severity 8]
    | "med" => [.severity 4]
    | "medium" => [.severity 4]
    | "low" => [.severity 0]
    | _ =>
      match parseU32 value with
      | some v => [.severity v]
      | none => []

/-- Embeds `AgentFilter::parse` (src/app/filter.rs lines 21-57). -/
def AgentFilter.parse (query : String) : AgentFilter :=
  { predicates := (splitWhitespace query).flatMap tokenPredicates
    raw_query := query }

/-- One predicate evaluated against an agent; the match arm of
`AgentFilter::matches` (src/app/filter.rs lines 65-79). -/
def matchesPredicate (agent : WazuhAgent) (p : FilterPredicate) : Bool :=
  match p with
  | .name val => strContains (lowerStr agent.name) val
  | .id val => strContains (lowerStr agent.id) val
  | .ip val => (agent.ip.map (fun ip => strContains ip val)).getD false
  | .status val => lowerStr agent.status = val
  | .os val =>
      (agent.os.map (fun os =>
        (os.name.map (fun n => strContains (lowerStr n) val)).getD false)).getD false
  | .severity _ => true
  | .global val =>
      strContains (lowerStr agent.name) val ||
      strContains (lowerStr agent.id) val ||
      (agent.ip.map (fun ip => strContains ip val)).getD false

/-- Embeds `AgentFilter::matches` (src/app/filter.rs lines 59-80). -/
def AgentFilter.matches (f : AgentFilter) (agent : WazuhAgent) : Bool :=
  if f.predicates.isEmpty then true
  else f.predicates.all (matchesPredicate agent)

/-- Transcription of the claim sentence about `parse` (with the severity
tier table amended to include the `crit` and `med` aliases the code also
accepts): a token containing `:` is mapped by its left key, case
insensitively, through the alias table; a severity right side is matched
against the named tiers and then against unsigned-integer syntax, an
unusable severity emits no predicate; any other key, or a token without
`:`, becomes a Global predicate over the whole lower-cased token. -/
def claimTokenPredicate (tok : String) : Option FilterPredicate :=
  if tok.toList.contains ':' then
    let key := lowerStr (String.mk (tok.toList.takeWhile (fun c => c ≠ ':')))
    let rhs := String.mk ((tok.toList.dropWhile (fun c => c ≠ ':')).tail)
    match key with
    | "name" => some (.name (lowerStr rhs))
    | "n" => some (.name (lowerStr rhs))
    | "id" => some (.id (lowerStr rhs))
    | "ip" => some (.ip (lowerStr rhs))
    | "status" => some (.status (lowerStr rhs))
    | "st" => some (.status (lowerStr rhs))
    | "os" => some (.os (lowerStr rhs))
    | "sev" => claimSeverity rhs
    | "s" => claimSeverity rhs
    | _ => some (.global (lowerStr tok))
  else some (.global (lowerStr tok))
where
  /-- The claim's severity table (amended with the `crit`/`med` aliases),
  falling back to unsigned-integer parsing, else no predicate. -/
  claimSeverity (rhs : String) : Option FilterPredicate :=
    match lowerStr rhs with
    | "crit" => some (.severity 12)
    | "critical" => some (.severity 12)
    | "high" => some (.severity 8)
    | "med" => some (.severity 4)
    | "medium" => some (.severity 4)
    | "low" => some (.severity 0)
    | _ => (parseU32 rhs).map .severity

/-! ## JSON documents (serde_json::Value, restricted to the shapes the
query builders produce: null, booleans, naturals, strings, arrays and
objects with fields in construction order). -/

/-- Model of `serde_json::Value` as used by the query builders. -/
inductive Json where
  | null : Json
  | bool (b : Bool) : Json
  | num (n : Nat) : Json
  | str (s : String) : Json
  | arr (elems : List Json) : Json
  | obj (fields : List (String × Json)) : Json
deriving Repr

/-- Field lookup in a JSON object (first binding wins); `none` on
non-objects. -/
def Json.lookup : Json → String → Option Json
  | .obj fields, k => lookupFields fields k
  | _, _ => none
where
  lookupFields : List (String × Json) → String → Option Json
    | [], _ => none
    | (k', v) :: fs, k => if k' = k then some v else lookupFields fs k

mutual

/-- Whether the object key `k` occurs anywhere inside a JSON document. -/
def Json.hasKey (k : String) : Json → Bool
  | .obj fields => hasKeyFields k fields
  | .arr elems => hasKeyArr k elems
  | _ => false

/-- Embeds `Json.hasKey` over an array's elements. -/
def hasKeyArr (k : String) : List Json → Bool
  | [] => false
  | j :: js => Json.hasKey k j || hasKeyArr k js

/-- Embeds `Json.hasKey` over an object's fields. -/
def hasKeyFields (k : String) : List (String × Json) → Bool
  | [] => false
  | (k', v) :: fs => k' = k || Json.hasKey k v || hasKeyFields k fs

end

/-! ## Log search query builder (src/api/mod.rs, `get_logs`, lines 296-411) -/

/-- Embeds `app::SeverityFilterMode`. -/
inductive SeverityFilterMode where
  | minMode
  | maxMode
  | exactMode
  | rangeMode
deriving DecidableEq, Repr

/-- Embeds `app::LogFilter` (src/app/mod.rs lines 86-94); `val1`/`val2` are
`u32` in the source, modelled as `Nat` (they are never arithmetically
combined, so no overflow arises). -/
structure LogFilter where
  mode : SeverityFilterMode
  val1 : Nat
  val2 : Nat
  agent_filter : String
  rule_id_filter : String
  description_filter : String
  mitre_filter : String
deriving Repr

/-- The initial time-window clause pushed onto `must`
(src/api/mod.rs lines 299-308). -/
def timestampClause (minutes : Nat) : Json :=
  .obj [("range", .obj [("@timestamp",
    .obj [("gte", .str ("now-" ++ toString minutes ++ "m")), ("lte", .str "now")])])]

/-- The `severity_query` value of `get_logs` (src/api/mod.rs
lines 312-317). -/
def severityQuery (f : LogFilter) : Json :=
  match f.mode with
  | .minMode => .obj [("range", .obj [("rule.level", .obj [("gte", .num f.val1)])])]
  | .maxMode => .obj [("range", .obj [("rule.level", .obj [("lte", .num f.val1)])])]
  | .exactMode => .obj [("term", .obj [("rule.level", .num f.val1)])]
  | .rangeMode =>
      .obj [("range", .obj [("rule.level", .obj [("gte", .num f.val1), ("lte", .num f.val2)])])]

/-- The agent-name wildcard clause (src/api/mod.rs lines 321-330). -/
def agentNameClause (s : String) : Json :=
  .obj [("wildcard", .obj [("agent.name",
    .obj [("value", .str ("*" ++ lowerStr s ++ "*")), ("case_insensitive", .bool true)])])]

/-- The rule-id clause (src/api/mod.rs lines 333-358): a `terms`
multi-value exact match on the trimmed comma-separated pieces when the
input contains a comma, a `wildcard` when it contains `*`, otherwise a
`term` exact match. -/
def ruleIdClause (s : String) : Json :=
  if s.toList.contains ',' then
    .obj [("terms", .obj [("rule.id", .arr ((splitCommas s).map (fun x => .str (trimStr x))))])]
  else if s.toList.contains '*' then
    .obj [("wildcard", .obj [("rule.id", .obj [("value", .str s)])])]
  else
    .obj [("term", .obj [("rule.id", .str s)])]

/-- The full-text description clause (src/api/mod.rs lines 362-371). -/
def descriptionClause (s : String) : Json :=
  .obj [("match", .obj [("rule.description",
    .obj [("query", .str s), ("operator", .str "and")])])]

/-- One of the three MITRE wildcard alternatives (src/api/mod.rs
lines 379-381). -/
def mitreAlternative (field lowered : String) : Json :=
  .obj [("wildcard", .obj [(field,
    .obj [("value", .str ("*" ++ lowered ++ "*")), ("case_insensitive", .bool true)])])]

/-- The MITRE should-match-one-of-three clause (src/api/mod.rs
lines 374-386). -/
def mitreClause (s : String) : Json :=
  let mitre_lower := lowerStr s
  .obj [("bool", .obj [
    ("should", .arr [
      mitreAlternative "rule.mitre.id" mitre_lower,
      mitreAlternative "rule.mitre.tactic" mitre_lower,
      mitreAlternative "rule.mitre.technique" mitre_lower]),
    ("minimum_should_match", .num 1)])]

/-- The per-agent scoping clause (src/api/mod.rs line 390). -/
def agentIdClause (id : String) : Json :=
  .obj [("term", .obj [("agent.id", .str id)])]

/-- The `must` list built by `get_logs` (src/api/mod.rs lines 299-391):
the time-window clause, then — when a filter is supplied — the severity
clause and the optional agent-name, rule-id, description and MITRE
clauses, then the optional agent-id scoping clause, in push order. -/
def buildLogsMust (agent_id : Option String) (minutes : Nat)
    (filter : Option LogFilter) : List Json :=
  [timestampClause minutes]
  ++ (match filter with
      | none => []
      | some f =>
        [severityQuery f]
        ++ (if f.agent_filter ≠ "" then [agentNameClause f.agent_filter] else [])
        ++ (if f.rule_id_filter ≠ "" then [ruleIdClause f.rule_id_filter] else [])
        ++ (if f.description_filter ≠ "" then [descriptionClause f.description_filter] else [])
        ++ (if f.mitre_filter ≠ "" then [mitreClause f.mitre_filter] else []))
  ++ (agent_id.map agentIdClause).toList

/-- The full query document of `get_logs` (src/api/mod.rs
lines 393-402). -/
def buildLogsQuery (agent_id : Option String) (minutes offset limit : Nat)
    (filter : Option LogFilter) : Json :=
  .obj [("from", .num offset), ("size", .num limit),
        ("sort", .arr [.obj [("@timestamp", .obj [("order", .str "desc")])]]),
        ("query", .obj [("bool", .obj [("must", .arr (buildLogsMust agent_id minutes filter))])])]

/-! ## Error taxonomy and HTTP outcomes -/

/-- The error classes the embedded operations can surface (the `anyhow`
error strings of src/api/mod.rs, by class). -/
inductive ApiError where
  | configError
  | transport
  | authFailed (status : Nat)
  | deserialization
  | searchFailed (body : String)
  | requestFailed (status : Nat) (body : String)
deriving DecidableEq, Repr

/-- Embeds `reqwest::StatusCode::is_success`: the 2xx range. -/
def isSuccessStatus (s : Nat) : Bool := 200 ≤ s && s ≤ 299

/-- The observable outcome of one HTTP exchange: a transport failure, or
a response with its status, the body parsed as `α` when the shape
matches, and the raw body text. -/
inductive HttpOutcome (α : Type) where
  | transportError
  | response (status : Nat) (parsed : Option α) (text : String)

/-! ## Vulnerability search (src/api/mod.rs, `get_vulnerabilities`,
lines 155-215; response shapes from src/models/mod.rs) -/

/-- Embeds `models::OSVulnerabilityScore`. -/
structure OSVulnerabilityScore where
  base : Float
  version : String

/-- Embeds `models::OSVulnerabilityScanner`. -/
structure OSVulnerabilityScanner where
  condition : Option String
  reference : Option String
  source : Option String
  vendor : Option String

/-- Embeds `models::OSVulnerabilityDetails`. -/
structure OSVulnerabilityDetails where
  category : Option String
  classification : Option String
  description : Option String
  detected_at : Option String
  enumeration : Option String
  id : String
  published_at : Option String
  reference : Option String
  scanner : Option OSVulnerabilityScanner
  score : Option OSVulnerabilityScore
  severity : Option String
  under_evaluation : Option Bool

/-- Embeds `models::OSPackage`. -/
structure OSPackage where
  name : Option String
  version : Option String
  pkg_type : Option String
  path : Option String

/-- Embeds `models::OSAgent`. -/
structure OSAgent where
  id : Option String
  name : Option String

/-- Embeds `models::OSVulnerabilityHit` (the `_source` object). -/
structure OSVulnerabilityHit where
  vulnerability : OSVulnerabilityDetails
  package : Option OSPackage
  agent : Option OSAgent

/-- Embeds `models::OSVulnerabilityHitWrapper`. -/
structure OSVulnerabilityHitWrapper where
  source : OSVulnerabilityHit

/-- Embeds `models::OSVulnerabilityHitsTotal`. -/
structure OSVulnerabilityHitsTotal where
  value : Nat

/-- Embeds `models::OSVulnerabilityHits`. -/
structure OSVulnerabilityHits where
  total : OSVulnerabilityHitsTotal
  hits : List OSVulnerabilityHitWrapper

/-- Embeds `models::OSVulnerabilityResponse`. -/
structure OSVulnerabilityResponse where
  hits : OSVulnerabilityHits

/-- Embeds `models::WazuhVulnerabilityPackage`. -/
structure WazuhVulnerabilityPackage where
  name : String
  version : String
  architecture : Option String
deriving DecidableEq, Repr

/-- Embeds `models::WazuhVulnerabilityItem`. -/
structure WazuhVulnerabilityItem where
  cve : String
  severity : String
  status : Option String
  title : Option String
  package : Option WazuhVulnerabilityPackage
  name : Option String
  version : Option String
deriving DecidableEq, Repr

/-- Embeds `models::WazuhVulnerabilitiesData`. -/
structure WazuhVulnerabilitiesData where
  affected_items : List WazuhVulnerabilityItem
  total_affected_items : Nat
deriving DecidableEq, Repr

/-- Embeds `models::WazuhVulnerabilitiesResponse`. -/
structure WazuhVulnerabilitiesResponse where
  data : WazuhVulnerabilitiesData
deriving DecidableEq, Repr

/-- The query document `get_vulnerabilities` posts to the vulnerability
index (src/api/mod.rs lines 159-171). -/
def vulnQuery (agent_id : String) : Json :=
  .obj [("size", .num 500),
        ("query", .obj [("bool", .obj [("must",
          .arr [.obj [("term", .obj [("agent.id", .str agent_id)])]])])]),
        ("sort", .arr [.obj [("vulnerability.severity", .obj [("order", .str "asc")])]])]

/-- The per-hit reshaping of `get_vulnerabilities` (src/api/mod.rs
lines 188-205): nested `package`/`vulnerability` fields flattened into the
domain record, with absent severity defaulting to "-" and absent package
name/version defaulting to the empty string. -/
def convertVulnHit (hit : OSVulnerabilityHitWrapper) : WazuhVulnerabilityItem :=
  let src := hit.source
  let pkg := src.package
  { cve := src.vulnerability.id
    severity := src.vulnerability.severity.getD "-"
    status := none
    title := src.vulnerability.description
    package := pkg.map (fun p =>
      { name := p.name.getD "", version := p.version.getD "", architecture := none })
    name := pkg.bind (fun p => p.name)
    version := pkg.bind (fun p => p.version) }

/-- Embeds `WazuhApi::get_vulnerabilities` (src/api/mod.rs lines 155-215), with
the HTTP exchange abstracted by the `search` oracle; the second component
is the list of search requests actually issued. -/
def get_vulnerabilities (cfg : Config) (agent_id : String)
    (search : Json → HttpOutcome OSVulnerabilityResponse) :
    Except ApiError WazuhVulnerabilitiesResponse × List Json :=
  match cfg.os_url with
  | none => (.error .configError, [])
  | some _ =>
    let query := vulnQuery agent_id
    match search query with
    | .transportError => (.error .transport, [query])
    | .response status parsed text =>
      if isSuccessStatus status then
        match parsed with
        | some osr =>
          (.ok { data := { affected_items := osr.hits.hits.map convertVulnHit,
                           total_affected_items := osr.hits.total.value } }, [query])
        | none => (.error .deserialization, [query])
      else (.error (.searchFailed text), [query])

/-! ## Authenticated gateway (src/api/mod.rs, `authenticate`, `get_token`
and `request`, lines 29-92).  The token cell (`Arc<RwLock<Option<String>>>`)
is modelled as an `Option String` threaded through the single caller; HTTP
exchanges are modelled by oracles indexed by how many exchanges of that
kind have already happened. -/

/-- Outcome of one authentication exchange: transport failure, or a
response with status and — when the body deserializes to the expected
shape — the extracted token. -/
inductive AuthOutcome where
  | transportError
  | response (status : Nat) (token : Option String)

/-- Outcome of one bearer-authenticated send: transport failure, or a
response with its status and body text. -/
inductive SendOutcome where
  | transportError
  | response (status : Nat) (text : String)
deriving Repr

/-- Embeds `WazuhApi::authenticate` (src/api/mod.rs lines 29-49) given the
outcome of its HTTP exchange and the current content of the token cell:
returns the token or an error, together with the new cell content.  The
cell is written (overwritten, not merged) only after a token has been
extracted from a success response. -/
def authenticate (out : AuthOutcome) (cell : Option String) :
    Except ApiError String × Option String :=
  match out with
  | .transportError => (.error .transport, cell)
  | .response status token? =>
    if isSuccessStatus status then
      match token? with
      | some tok => (.ok tok, some tok)
      | none => (.error .deserialization, cell)
    else (.error (.authFailed status), cell)

/-- The environment a `request` call runs against: the outcome of the
i-th authentication exchange and of the i-th bearer-authenticated send. -/
structure GatewayEnv where
  authOutcome : Nat → AuthOutcome
  sendOutcome : Nat → SendOutcome

/-- The gateway-visible state: the token cell plus counters of how many
authentication exchanges and sends have happened. -/
structure GatewayState where
  token : Option String
  nAuth : Nat
  nSend : Nat
deriving Repr

/-- Externally observable steps of a `request` call. -/
inductive GatewayEvent where
  | auth
  | send (method : String) (url : String) (body : Option Json)

/-- One call to `self.authenticate()` from inside the gateway: consumes
the next authentication outcome and updates the cell per `authenticate`. -/
def runAuthenticate (env : GatewayEnv) (st : GatewayState) :
    Except ApiError String × GatewayState :=
  let r := authenticate (env.authOutcome st.nAuth) st.token
  (r.1, { st with token := r.2, nAuth := st.nAuth + 1 })

/-- Embeds `WazuhApi::get_token` (src/api/mod.rs lines 51-59): return the cached
token, authenticating first when the cell is empty. -/
def getTokenGw (env : GatewayEnv) (st : GatewayState) :
    Except ApiError String × GatewayState × List GatewayEvent :=
  match st.token with
  | some t => (.ok t, st, [])
  | none =>
    let r := runAuthenticate env st
    (r.1, r.2, [.auth])

/-- Embeds `WazuhApi::request` (src/api/mod.rs lines 61-92): obtain a token,
send the request, and on a 401 response reauthenticate once and resend
the same method, url and body once; any other non-success status, or a
non-success status on the retry, is an error.  Returns the response
(status, body) or the error, the final state, and the event trace.  The
error of a failed retry quotes the FIRST status (the outer `status`
variable, line 81), exactly as the source does. -/
def requestGw (env : GatewayEnv) (st : GatewayState) (method url : String)
    (body : Option Json) :
    Except ApiError (Nat × String) × GatewayState × List GatewayEvent :=
  match getTokenGw env st with
  | (.error e, st1, evs) => (.error e, st1, evs)
  | (.ok _, st1, evs) =>
    let out1 := env.sendOutcome st1.nSend
    let st2 := { st1 with nSend := st1.nSend + 1 }
    let evs1 := evs ++ [.send method url body]
    match out1 with
    | .transportError => (.error .transport, st2, evs1)
    | .response status text =>
      if status = 401 then
        match runAuthenticate env st2 with
        | (.error e, st3) => (.error e, st3, evs1 ++ [.auth])
        | (.ok _, st3) =>
          let out2 := env.sendOutcome st3.nSend
          let st4 := { st3 with nSend := st3.nSend + 1 }
          let evs2 := evs1 ++ [.auth, .send method url body]
          match out2 with
          | .transportError => (.error .transport, st4, evs2)
          | .response s2 t2 =>
            if isSuccessStatus s2 then (.ok (s2, t2), st4, evs2)
            else (.error (.requestFailed status t2), st4, evs2)
      else if isSuccessStatus status then (.ok (status, text), st2, evs1)
      else (.error (.requestFailed status text), st2, evs1)

/-! ## Agent listing and summary (src/api/mod.rs, `list_agents` lines
94-104 and `get_summary` lines 253-274) -/

/-- Embeds `models::WazuhAgentsData`. -/
structure WazuhAgentsData where
  affected_items : List WazuhAgent
  total_affected_items : Nat
deriving DecidableEq, Repr

/-- Embeds `models::WazuhAgentsResponse`. -/
structure WazuhAgentsResponse where
  data : WazuhAgentsData
deriving DecidableEq, Repr

/-- Embeds `models::AgentSummary`. -/
structure AgentSummary where
  total : Nat
  active : Nat
  disconnected : Nat
  never_connected : Nat
deriving DecidableEq, Repr

/-- The request URL built by `WazuhApi::list_agents` (src/api/mod.rs
lines 94-100): base, offset and limit, plus `&group=g` only when a group
is supplied and is not the literal string "all". -/
def listAgentsUrl (cfg : Config) (group : Option String) (offset limit : Nat) : String :=
  let url := cfg.url ++ "/agents?offset=" ++ toString offset ++ "&limit=" ++ toString limit
  match group with
  | some g => if g ≠ "all" then url ++ "&group=" ++ g else url
  | none => url

/-- The body of the counting loop of `WazuhApi::get_summary`
(src/api/mod.rs lines 264-271): bump the bucket matching the agent's
exact status string, leaving any other status out of every bucket. -/
def summarizeStep (s : AgentSummary) (agent : WazuhAgent) : AgentSummary :=
  match agent.status with
  | "active" => { s with active := s.active + 1 }
  | "disconnected" => { s with disconnected := s.disconnected + 1 }
  | "never_connected" => { s with never_connected := s.never_connected + 1 }
  | _ => s

/-- The counting loop of `WazuhApi::get_summary` (src/api/mod.rs lines
257-271); `total` is the backend-reported `total_affected_items`. -/
def summarize (resp : WazuhAgentsResponse) : AgentSummary :=
  let init : AgentSummary :=
    { total := resp.data.total_affected_items
      active := 0, disconnected := 0, never_connected := 0 }
  resp.data.affected_items.foldl summarizeStep init

/-- Embeds `WazuhApi::get_summary` (src/api/mod.rs lines 253-274): fetch one
page via `list_agents(None, 0, 500)` — abstracted by the `fetch` oracle
keyed on the request URL — and count the agents by status bucket. -/
def get_summary (cfg : Config)
    (fetch : String → Except ApiError WazuhAgentsResponse) :
    Except ApiError AgentSummary :=
  match fetch (listAgentsUrl cfg none 0 500) with
  | .error e => .error e
  | .ok resp => .ok (summarize resp)

/-! ## State reducer (src/main.rs, the `while let Ok(update) = rx.try_recv()`
drain loop, lines 103-129; state and helpers from src/app/mod.rs).  The
`App` structure is modelled by exactly the fields the reducer reads or
writes, plus the sort configuration read by `sort_agents`.  `Instant::now()`
timestamps are modelled by a `now : Nat` parameter of the drain. -/

/-- Embeds `models::WazuhGroup`. -/
structure WazuhGroup where
  name : String
  count : Option Nat
deriving DecidableEq, Repr

/-- Embeds `models::VulnerabilitySummary`. -/
structure VulnerabilitySummary where
  critical : Nat
  high : Nat
  medium : Nat
  low : Nat
  untriaged : Nat
deriving DecidableEq, Repr

/-- Embeds `app::ThreatStats`. -/
structure ThreatStats where
  critical : Nat
  high : Nat
  medium : Nat
  low : Nat
deriving DecidableEq, Repr

/-- Embeds `models::WazuhHardwareCpu` (`mhz` is `f64` in the source). -/
structure WazuhHardwareCpu where
  cores : Nat
  mhz : Float
  name : String

/-- Embeds `models::WazuhHardwareRam`. -/
structure WazuhHardwareRam where
  free : Nat
  total : Nat
  usage : Nat

/-- Embeds `models::WazuhHardwareScan`. -/
structure WazuhHardwareScan where
  id : Nat
  time : String

/-- Embeds `models::WazuhHardwareItem`. -/
structure WazuhHardwareItem where
  cpu : WazuhHardwareCpu
  ram : WazuhHardwareRam
  scan : WazuhHardwareScan
  board_serial : String
  agent_id : String

/-- Embeds `models::WazuhProcessItem`. -/
structure WazuhProcessItem where
  name : Option String
  cmd : Option String
  pid : String
  state : Option String
  agent_id : String
deriving DecidableEq, Repr

/-- Embeds `models::WazuhProgramItem`. -/
structure WazuhProgramItem where
  name : String
  version : String
  vendor : Option String
  description : Option String
  agent_id : String
deriving DecidableEq, Repr

/-- Embeds `app::NotificationLevel`. -/
inductive NotificationLevel where
  | info
  | success
  | warning
  | error
deriving DecidableEq, Repr

/-- Embeds `app::Notification`; `timestamp: Instant` modelled as `Nat`. -/
structure AppNotification where
  message : String
  level : NotificationLevel
  timestamp : Nat
deriving DecidableEq, Repr

/-- Embeds `app::PopupMode`. -/
inductive PopupMode where
  | noPopup
  | groupAssignment (agent_id : String)
  | severityFilter
  | sshUsername (agent_id : String) (agent_ip : String)
  | agentJump
  | errorPopup (title : String) (message : String)
  | helpPopup
  | commandPalette
deriving DecidableEq, Repr

/-- Embeds `app::SortColumn`. -/
inductive SortColumn where
  | id
  | name
  | ip
  | status
  | os
  | lastKeepAlive
deriving DecidableEq, Repr

/-- Embeds `app::SortOrder`. -/
inductive SortOrder where
  | asc
  | desc
deriving DecidableEq, Repr

/-- The comparator of `App::sort_agents` (src/app/mod.rs lines 708-727):
compare by the active sort column (the `os` column compares
`os.as_ref().map(|o| o.name).unwrap_or_default()`), reversed when the
order is descending. -/
def cmpAgents (col : SortColumn) (ord : SortOrder) (a b : WazuhAgent) : Ordering :=
  let res :=
    match col with
    | .id => compare a.id b.id
    | .name => compare a.name b.name
    | .ip => compare a.ip b.ip
    | .status => compare a.status b.status
    | .os => compare (a.os.bind (fun o => o.name)) (b.os.bind (fun o => o.name))
    | .lastKeepAlive => compare a.last_keep_alive b.last_keep_alive
  if ord = .desc then res.swap else res

/-- Embeds `App::sort_agents`: Rust's stable `sort_by` modelled by the stable
merge sort with `le a b` iff the comparator does not say `gt`. -/
def sortAgents (col : SortColumn) (ord : SortOrder) (agents : List WazuhAgent) :
    List WazuhAgent :=
  agents.mergeSort (fun a b => cmpAgents col ord a b ≠ .gt)

/-- Embeds `app::DataUpdate` (src/app/mod.rs lines 36-54). -/
inductive DataUpdate where
  | agents (payload : List WazuhAgent)
  | groups (payload : List WazuhGroup)
  | groupAgents (payload : List WazuhAgent)
  | securityEvents (payload : List Json)
  | vulnSummary (payload : VulnerabilitySummary)
  | threatStats (payload : ThreatStats)
  | agentHardware (payload : WazuhHardwareItem)
  | agentProcesses (payload : List WazuhProcessItem)
  | agentPrograms (payload : List WazuhProgramItem)
  | agentVulnerabilities (payload : List WazuhVulnerabilityItem)
  | agentLogs (payload : List Json)
  | agentConfig (payload : Json)
  | alertHistory (payload : List (String × Nat))
  | topAgents (payload : List (String × Nat))
  | notification (message : String) (level : NotificationLevel)
  | errorMsg (message : String)
  | errorPopup (title : String) (message : String)

/-- The fields of `app::App` the reducer reads or writes. -/
structure AppState where
  agents : List WazuhAgent
  groups : List WazuhGroup
  logs : List Json
  vuln_summary : VulnerabilitySummary
  threat_stats : ThreatStats
  hardware : Option WazuhHardwareItem
  processes : List WazuhProcessItem
  programs : List WazuhProgramItem
  vulnerabilities : List WazuhVulnerabilityItem
  agent_logs : List Json
  agent_config : Option Json
  alert_buckets : List (String × Nat)
  top_agents : List (String × Nat)
  notifications : List AppNotification
  error_message : Option String
  popup_mode : PopupMode
  sort_column : SortColumn
  sort_order : SortOrder

/-- One iteration of the reducer's `match update` (src/main.rs lines
104-128): `Agents`/`GroupAgents` assign `app.agents` and then call
`sort_agents`; `Notification` pushes onto the notification list via
`App::notify`; `ErrorPopup` sets the popup via `App::show_error`; every
other variant assigns its payload to its field. -/
def applyUpdate (now : Nat) (s : AppState) (u : DataUpdate) : AppState :=
  match u with
  | .agents payload =>
      { s with agents := sortAgents s.sort_column s.sort_order payload }
  | .groups payload => { s with groups := payload }
  | .groupAgents payload =>
      { s with agents := sortAgents s.sort_column s.sort_order payload }
  | .securityEvents payload => { s with logs := payload }
  | .vulnSummary payload => { s with vuln_summary := payload }
  | .threatStats payload => { s with threat_stats := payload }
  | .agentHardware payload => { s with hardware := some payload }
  | .agentProcesses payload => { s with processes := payload }
  | .agentPrograms payload => { s with programs := payload }
  | .agentVulnerabilities payload => { s with vulnerabilities := payload }
  | .agentLogs payload => { s with agent_logs := payload }
  | .agentConfig payload => { s with agent_config := some payload }
  | .alertHistory payload => { s with alert_buckets := payload }
  | .topAgents payload => { s with top_agents := payload }
  | .notification message level =>
      { s with notifications :=
          s.notifications ++ [{ message := message, level := level, timestamp := now }] }
  | .errorMsg message => { s with error_message := some message }
  | .errorPopup title message =>
      { s with popup_mode := .errorPopup title message }

/-- The drain loop (src/main.rs line 103): apply every queued message to
the state, in receive order. -/
def drainUpdates (now : Nat) (s : AppState) (us : List DataUpdate) : AppState :=
  us.foldl (applyUpdate now) s

/-- The slice of application state a `DataUpdate` variant addresses. -/
inductive StateSlice where
  | agents
  | groups
  | logs
  | vulnSummary
  | threatStats
  | hardware
  | processes
  | programs
  | vulnerabilities
  | agentLogs
  | agentConfig
  | alertBuckets
  | topAgents
  | notifications
  | errorMessage
  | popupMode
deriving DecidableEq, Repr

/-- Which slice each message variant targets (note that `Agents` and
`GroupAgents` both write `app.agents`). -/
def targetSlice : DataUpdate → StateSlice
  | .agents _ => .agents
  | .groups _ => .groups
  | .groupAgents _ => .agents
  | .securityEvents _ => .logs
  | .vulnSummary _ => .vulnSummary
  | .threatStats _ => .threatStats
  | .agentHardware _ => .hardware
  | .agentProcesses _ => .processes
  | .agentPrograms _ => .programs
  | .agentVulnerabilities _ => .vulnerabilities
  | .agentLogs _ => .agentLogs
  | .agentConfig _ => .agentConfig
  | .alertHistory _ => .alertBuckets
  | .topAgents _ => .topAgents
  | .notification _ _ => .notifications
  | .errorMsg _ => .errorMessage
  | .errorPopup _ _ => .popupMode

/-- Two states agree on a given slice. -/
def agreesOn (sl : StateSlice) (s t : AppState) : Prop :=
  match sl with
  | .agents => s.agents = t.agents
  | .groups => s.groups = t.groups
  | .logs => s.logs = t.logs
  | .vulnSummary => s.vuln_summary = t.vuln_summary
  | .threatStats => s.threat_stats = t.threat_stats
  | .hardware => s.hardware = t.hardware
  | .processes => s.processes = t.processes
  | .programs => s.programs = t.programs
  | .vulnerabilities => s.vulnerabilities = t.vulnerabilities
  | .agentLogs => s.agent_logs = t.agent_logs
  | .agentConfig => s.agent_config = t.agent_config
  | .alertBuckets => s.alert_buckets = t.alert_buckets
  | .topAgents => s.top_agents = t.top_agents
  | .notifications => s.notifications = t.notifications
  | .errorMessage => s.error_message = t.error_message
  | .popupMode => s.popup_mode = t.popup_mode

/-! ## Concrete data used by the witness and counterexample theorems -/

/-- Lookup along a path of object keys. -/
def Json.lookupPath (j : Json) : List String → Option Json
  | [] => some j
  | k :: ks => match j.lookup k with
    | some v => v.lookupPath ks
    | none => none

/-- A sample agent whose ip contains upper-case letters (an IPv6-style
address), as stored by the backend. -/
def ipAgent : WazuhAgent :=
  { id := "001", name := "x", ip := some "FE80::1", status := "active"
    version := none, node_name := none, group := none, date_add := none
    last_keep_alive := none, os := none, manager := none }

/-- Sample agent with the smaller id. -/
def agentId1 : WazuhAgent :=
  { id := "001", name := "beta", ip := none, status := "active"
    version := none, node_name := none, group := none, date_add := none
    last_keep_alive := none, os := none, manager := none }

/-- Sample agent with the larger id. -/
def agentId2 : WazuhAgent :=
  { id := "002", name := "alpha", ip := none, status := "disconnected"
    version := none, node_name := none, group := none, date_add := none
    last_keep_alive := none, os := none, manager := none }

/-- The application state right after `App::new`, restricted to the
reducer-visible fields (src/app/mod.rs lines 362-432). -/
def initialAppState : AppState :=
  { agents := [], groups := [], logs := []
    vuln_summary := { critical := 0, high := 0, medium := 0, low := 0, untriaged := 0 }
    threat_stats := { critical := 0, high := 0, medium := 0, low := 0 }
    hardware := none, processes := [], programs := [], vulnerabilities := []
    agent_logs := [], agent_config := none, alert_buckets := [], top_agents := []
    notifications := [], error_message := none, popup_mode := .noPopup
    sort_column := .id, sort_order := .asc }

/-- A gateway environment whose first send answers 401 and whose retry
answers 401 again, with reauthentication succeeding. -/
def c1Env : GatewayEnv :=
  { authOutcome := fun _ => .response 200 (some "tok2")
    sendOutcome := fun i => if i = 0 then .response 401 "unauth" else .response 401 "unauth2" }

/-- A gateway state holding a cached token and fresh counters. -/
def c1St : GatewayState := { token := some "tok0", nAuth := 0, nSend := 0 }

/-- A configuration with the search endpoint set. -/
def c5Config : Config :=
  { url := "https://manager:55000", username := "u", password := "p"
    os_url := some "https://search:9200", os_username := none, os_password := none }

/-- A vulnerability hit with every optional field absent. -/
def c5BareHit : OSVulnerabilityHitWrapper :=
  { source :=
    { vulnerability :=
      { category := none, classification := none, description := none
        detected_at := none, enumeration := none, id := "CVE-2025-0001"
        published_at := none, reference := none, scanner := none, score := none
        severity := none, under_evaluation := none }
      package := none, agent := none } }

/-- A vulnerability hit with nested package and severity present. -/
def c5FullHit : OSVulnerabilityHitWrapper :=
  { source :=
    { vulnerability :=
      { category := none, classification := none, description := some "pip vulnerability"
        detected_at := none, enumeration := none, id := "CVE-2025-8869"
        published_at := none, reference := none, scanner := none, score := none
        severity := some "Critical", under_evaluation := none }
      package := some { name := some "pip", version := some "23.3.1", pkg_type := none, path := none }
      agent := none } }

/-- A mocked search response with `hits.total.value = 2`. -/
def c5Response : OSVulnerabilityResponse :=
  { hits := { total := { value := 2 }, hits := [c5FullHit, c5BareHit] } }

/-- The reshaped domain item for `c5FullHit`. -/
def c5ExpectedFull : WazuhVulnerabilityItem :=
  { cve := "CVE-2025-8869", severity := "Critical", status := none
    title := some "pip vulnerability"
    package := some { name := "pip", version := "23.3.1", architecture := none }
    name := some "pip", version := some "23.3.1" }

/-- The reshaped domain item for `c5BareHit`: every absent field
defaulted. -/
def c5ExpectedBare : WazuhVulnerabilityItem :=
  { cve := "CVE-2025-0001", severity := "-", status := none
    title := none, package := none, name := none, version := none }

/-- A search oracle answering every query with `c5Response` and HTTP 200. -/
def c5Search : Json → HttpOutcome OSVulnerabilityResponse :=
  fun _ => .response 200 (some c5Response) ""

/-- A fetched agent page: three agents with the three recognized statuses
plus one with an unrecognized status, and a backend total of 57. -/
def c8Response : WazuhAgentsResponse :=
  { data :=
    { affected_items :=
        [agentId1, agentId2,
         { agentId1 with id := "003", status := "never_connected" },
         { agentId1 with id := "004", status := "pending" }]
      total_affected_items := 57 } }

/-- A LogFilter with Exact(10) severity and no other filters. -/
def exactFilter10 : LogFilter :=
  { mode := .exactMode, val1 := 10, val2 := 0, agent_filter := ""
    rule_id_filter := "", description_filter := "", mitre_filter := "" }

/-- A LogFilter whose rule-id filter is a comma-separated list. -/
def commaRuleFilter : LogFilter :=
  { mode := .minMode, val1 := 0, val2 := 15, agent_filter := ""
    rule_id_filter := "100, 200", description_filter := "", mitre_filter := "" }

/-! ## Helper lemmas -/

/-- Embeds `strContains` decides substring containment. -/
theorem strContains_iff (hay pat : String) :
    strContains hay pat = true ↔ pat.toList <:+: hay.toList := by
  simp [strContains]

/-- The severity arm of the parser agrees with the claim's severity
table. -/
theorem sevPredicates_eq_claim (rhs : String) :
    tokenPredicates.sevPredicates rhs = (claimTokenPredicate.claimSeverity rhs).toList := by
  unfold tokenPredicates.sevPredicates claimTokenPredicate.claimSeverity
  split <;> simp_all
  cases parseU32 rhs <;> simp

/-- Each token contributes exactly the predicate the claim's per-token
mapping assigns it. -/
theorem tokenPredicates_eq_claim (t : String) :
    tokenPredicates t = (claimTokenPredicate t).toList := by
  unfold tokenPredicates claimTokenPredicate splitOnceColon
  by_cases h : t.toList.contains ':'
  · simp only [h, if_true]
    split <;> simp_all [sevPredicates_eq_claim]
  · have h' : ¬ (':' ∈ t.data) := by simpa using h
    simp [h']

/-- Flat-mapping the parser's per-token step is filter-mapping the
claim's per-token mapping. -/
theorem flatMap_tokenPredicates (l : List String) :
    l.flatMap tokenPredicates = l.filterMap claimTokenPredicate := by
  induction l with
  | nil => rfl
  | cons t ts ih =>
    rw [List.flatMap_cons, List.filterMap_cons, tokenPredicates_eq_claim t, ih]
    cases claimTokenPredicate t <;> simp

/-- No JSON key occurs in an array of plain strings. -/
theorem hasKeyArr_map_str (k : String) (f : String → String) (L : List String) :
    hasKeyArr k (L.map (fun x => Json.str (f x))) = false := by
  induction L with
  | nil => rfl
  | cons a l ih => simp [hasKeyArr, Json.hasKey, ih]

/-- The key `rule.level` occurs in the severity clause of every mode. -/
theorem hasKey_level_severityQuery (f : LogFilter) :
    Json.hasKey "rule.level" (severityQuery f) = true := by
  cases hm : f.mode <;> simp [severityQuery, hm, Json.hasKey, hasKeyFields]

/-- The key `rule.level` occurs in no rule-id clause. -/
theorem hasKey_level_ruleIdClause (s : String) :
    Json.hasKey "rule.level" (ruleIdClause s) = false := by
  unfold ruleIdClause
  split
  · simp [Json.hasKey, hasKeyFields, hasKeyArr_map_str]
  · split <;> simp [Json.hasKey, hasKeyFields, hasKeyArr]

/-- The key `rule.id` occurs in every rule-id clause. -/
theorem hasKey_ruleId_ruleIdClause (s : String) :
    Json.hasKey "rule.id" (ruleIdClause s) = true := by
  unfold ruleIdClause
  split
  · simp [Json.hasKey, hasKeyFields]
  · split <;> simp [Json.hasKey, hasKeyFields]

/-- The key `rule.id` occurs in no severity clause. -/
theorem hasKey_ruleId_severityQuery (f : LogFilter) :
    Json.hasKey "rule.id" (severityQuery f) = false := by
  cases hm : f.mode <;> simp [severityQuery, hm, Json.hasKey, hasKeyFields]

/-- A list with exactly one element satisfying `p` filters to that
element and counts one. -/
theorem filter_one (p : Json → Bool) (l1 l2 : List Json) (x : Json)
    (h1 : ∀ j ∈ l1, p j = false) (h2 : ∀ j ∈ l2, p j = false) (hx : p x = true) :
    ((l1 ++ [x] ++ l2).filter p = [x]) ∧ ((l1 ++ [x] ++ l2).countP p = 1) := by
  have e1 : l1.filter p = [] := List.filter_eq_nil_iff.2 (by simpa using h1)
  have e2 : l2.filter p = [] := List.filter_eq_nil_iff.2 (by simpa using h2)
  constructor
  · simp [List.filter_append, e1, e2, hx]
  · have := congrArg List.length (by simp [List.filter_append, e1, e2, hx] :
      (l1 ++ [x] ++ l2).filter p = [x])
    simpa [← List.countP_eq_length_filter] using this

/-- Membership in a conditionally-pushed singleton clause. -/
theorem mem_ite_singleton {j x : Json} {c : Prop} [Decidable c]
    (h : j ∈ (if c then [x] else [])) : j = x := by
  split at h <;> simp_all

/-! ## C3 — the filter-compiler `parse` -/

/-- C3 counterexample: the claim's tier table (`critical`, `high`,
`medium`, `low`) implies that `sev:crit` matches no tier, fails integer
parsing, and therefore emits no predicate; the code's tier table also
accepts the alias `crit`, so `parse "sev:crit"` emits `Severity(12)`. -/
theorem parse_sev_crit_refutes_claim :
    (AgentFilter.parse "sev:crit").predicates = [FilterPredicate.severity 12] ∧
    (AgentFilter.parse "sev:crit").predicates ≠ [] := by
  constructor <;> decide

/-- C3 (amended: the severity tier table also contains the aliases
`crit→12` and `med→4`): for every query string, `parse` splits on
whitespace and maps each token through the claim's per-token table —
tokens with `:` by their case-insensitive left key through
name|n→Name, id→Id, ip→Ip, status|st→Status, os→Os, sev|s→Severity, with
the severity right side matched against the named tiers
crit|critical→12, high→8, med|medium→4, low→0 (case-insensitive) before
unsigned-integer parsing and dropped when both fail; any other key, or a
token without `:`, becoming a Global predicate over the whole
lower-cased token — keeping the raw query text alongside. -/
theorem parse_matches_claim_table (q : String) :
    (AgentFilter.parse q).predicates = (splitWhitespace q).filterMap claimTokenPredicate ∧
    (AgentFilter.parse q).raw_query = q :=
  ⟨flatMap_tokenPredicates (splitWhitespace q), rfl⟩

/-! ## C4 — the filter-compiler `matches` -/

/-- C4 counterexample: the claim says every string comparison except
Status is case-insensitive substring containment, so the parsed filter
`ip:fe80` should match an agent whose ip is `FE80::1` (`"fe80"` is a
substring of the lower-cased ip); the code compares the lower-cased
pattern against the agent's ip as stored and returns false. -/
theorem matches_ip_refutes_claim :
    (AgentFilter.parse "ip:fe80").matches ipAgent = false ∧
    "fe80".toList <:+: (lowerStr "FE80::1").toList ∧
    ipAgent.ip = some "FE80::1" := by
  refine ⟨by decide, by decide, rfl⟩

/-- C4 (amended: Ip predicates and the ip leg of Global compare the
parse-lowered pattern against the agent's ip exactly as stored, so they
are case-sensitive on the entity side): `matches` is the conjunction of
all predicates, the empty predicate list matches everything, Name/Id/Os
are case-insensitive substring containment, Status is exact equality
after lower-casing, Severity predicates always hold, and Global holds
iff the value occurs in the lower-cased name, the lower-cased id, or the
raw ip. -/
theorem matches_characterization (f : AgentFilter) (a : WazuhAgent) :
    (f.matches a = true ↔ ∀ p ∈ f.predicates, matchesPredicate a p = true) ∧
    (f.predicates = [] → f.matches a = true) ∧
    (∀ v, matchesPredicate a (.name v) = true ↔ v.toList <:+: (lowerStr a.name).toList) ∧
    (∀ v, matchesPredicate a (.id v) = true ↔ v.toList <:+: (lowerStr a.id).toList) ∧
    (∀ v, matchesPredicate a (.ip v) = true ↔
        ∃ ip, a.ip = some ip ∧ v.toList <:+: ip.toList) ∧
    (∀ v, matchesPredicate a (.status v) = true ↔ lowerStr a.status = v) ∧
    (∀ v, matchesPredicate a (.os v) = true ↔
        ∃ os n, a.os = some os ∧ os.name = some n ∧ v.toList <:+: (lowerStr n).toList) ∧
    (∀ n, matchesPredicate a (.severity n) = true) ∧
    (∀ v, matchesPredicate a (.global v) = true ↔
        (v.toList <:+: (lowerStr a.name).toList ∨ v.toList <:+: (lowerStr a.id).toList ∨
         ∃ ip, a.ip = some ip ∧ v.toList <:+: ip.toList)) := by
  refine ⟨?_, ?_, ?_, ?_, ?_, ?_, ?_, ?_, ?_⟩
  · rcases hp : f.predicates with _ | ⟨p, ps⟩ <;>
      simp [AgentFilter.matches, hp, List.all_eq_true]
  · intro hp; simp [AgentFilter.matches, hp]
  · intro v; simp [matchesPredicate, strContains]
  · intro v; simp [matchesPredicate, strContains]
  · intro v; cases hip : a.ip <;> simp [matchesPredicate, strContains, hip]
  · intro v; simp [matchesPredicate]
  · intro v
    cases hos : a.os with
    | none => simp [matchesPredicate, hos]
    | some os =>
      cases hn : os.name <;> simp [matchesPredicate, strContains, hos, hn]
  · intro n; rfl
  · intro v; cases hip : a.ip <;> simp [matchesPredicate, strContains, hip, or_assoc]

/-- C4 witness: the characterization applied to the empty filter and a
concrete agent. -/
theorem matches_characterization_witness :
    (AgentFilter.parse "").matches ipAgent = true :=
  (matches_characterization (AgentFilter.parse "") ipAgent).2.1 (by decide)

/-! ## C6 — severity clause of the log query -/

/-- C6: for every supplied LogFilter, the query built by `get_logs`
carries its `must` clauses under query.bool.must, exactly one of those
clauses touches `rule.level`, that clause is the mode-selected severity
clause: Min → level ≥ val1, Max → level ≤ val1, Exact → term
level = val1, Range → val1 ≤ level ≤ val2. -/
theorem get_logs_severity_clause (aid : Option String) (minutes offset limit : Nat)
    (f : LogFilter) :
    Json.lookupPath (buildLogsQuery aid minutes offset limit (some f)) ["query", "bool", "must"]
      = some (.arr (buildLogsMust aid minutes (some f))) ∧
    (buildLogsMust aid minutes (some f)).filter (Json.hasKey "rule.level") = [severityQuery f] ∧
    (buildLogsMust aid minutes (some f)).countP (Json.hasKey "rule.level") = 1 ∧
    (f.mode = .minMode → severityQuery f
      = .obj [("range", .obj [("rule.level", .obj [("gte", .num f.val1)])])]) ∧
    (f.mode = .maxMode → severityQuery f
      = .obj [("range", .obj [("rule.level", .obj [("lte", .num f.val1)])])]) ∧
    (f.mode = .exactMode → severityQuery f
      = .obj [("term", .obj [("rule.level", .num f.val1)])]) ∧
    (f.mode = .rangeMode → severityQuery f
      = .obj [("range", .obj [("rule.level", .obj [("gte", .num f.val1), ("lte", .num f.val2)])])]) := by
  have hrest : ∀ j ∈ ((if f.agent_filter ≠ "" then [agentNameClause f.agent_filter] else [])
      ++ ((if f.rule_id_filter ≠ "" then [ruleIdClause f.rule_id_filter] else [])
      ++ ((if f.description_filter ≠ "" then [descriptionClause f.description_filter] else [])
      ++ ((if f.mitre_filter ≠ "" then [mitreClause f.mitre_filter] else [])
      ++ (aid.map agentIdClause).toList)))),
      Json.hasKey "rule.level" j = false := by
    intro j hj
    simp only [List.mem_append] at hj
    rcases hj with h | h | h | h | h
    · rw [mem_ite_singleton h]; rfl
    · rw [mem_ite_singleton h]; exact hasKey_level_ruleIdClause _
    · rw [mem_ite_singleton h]; rfl
    · rw [mem_ite_singleton h]; rfl
    · cases aid with
      | some id => simp only [Option.map_some', Option.toList_some, List.mem_singleton] at h; rw [h]; rfl
      | none => simp only [Option.map_none', Option.toList_none, List.not_mem_nil] at h
  have hshape : buildLogsMust aid minutes (some f)
      = [timestampClause minutes] ++ [severityQuery f]
        ++ ((if f.agent_filter ≠ "" then [agentNameClause f.agent_filter] else [])
        ++ ((if f.rule_id_filter ≠ "" then [ruleIdClause f.rule_id_filter] else [])
        ++ ((if f.description_filter ≠ "" then [descriptionClause f.description_filter] else [])
        ++ ((if f.mitre_filter ≠ "" then [mitreClause f.mitre_filter] else [])
        ++ (aid.map agentIdClause).toList)))) := by
    simp [buildLogsMust]
  have hmain := filter_one (Json.hasKey "rule.level") [timestampClause minutes] _
    (severityQuery f)
    (by intro j hj; simp only [List.mem_singleton] at hj; rw [hj]; rfl)
    hrest (hasKey_level_severityQuery f)
  refine ⟨rfl, ?_, ?_, ?_, ?_, ?_, ?_⟩
  · rw [hshape]; exact hmain.1
  · rw [hshape]; exact hmain.2
  · intro hm; simp [severityQuery, hm]
  · intro hm; simp [severityQuery, hm]
  · intro hm; simp [severityQuery, hm]
  · intro hm; simp [severityQuery, hm]

/-- C6 witness: the severity facts at a concrete Exact(10) filter. -/
theorem get_logs_severity_clause_witness :
    (buildLogsMust none 60 (some exactFilter10)).countP (Json.hasKey "rule.level") = 1 ∧
    severityQuery exactFilter10 = .obj [("term", .obj [("rule.level", .num 10)])] :=
  ⟨(get_logs_severity_clause none 60 0 25 exactFilter10).2.2.1,
   (get_logs_severity_clause none 60 0 25 exactFilter10).2.2.2.2.2.1 rfl⟩

/-! ## C7 — rule-id clause of the log query -/

/-- C7: for every non-empty rule-id filter string, the `must` list of the
query built by `get_logs` carries exactly one clause touching `rule.id`,
and that clause is a `terms` multi-value exact match over the trimmed
comma-separated segments when the string contains a comma, a `wildcard`
match when it contains `*` (and no comma), and otherwise a single exact
`term` match. -/
theorem get_logs_rule_id_clause (aid : Option String) (minutes offset limit : Nat)
    (f : LogFilter) (h : f.rule_id_filter ≠ "") :
    Json.lookupPath (buildLogsQuery aid minutes offset limit (some f)) ["query", "bool", "must"]
      = some (.arr (buildLogsMust aid minutes (some f))) ∧
    (buildLogsMust aid minutes (some f)).filter (Json.hasKey "rule.id")
      = [ruleIdClause f.rule_id_filter] ∧
    (buildLogsMust aid minutes (some f)).countP (Json.hasKey "rule.id") = 1 ∧
    (f.rule_id_filter.toList.contains ',' = true →
      ruleIdClause f.rule_id_filter =
        .obj [("terms", .obj [("rule.id",
          .arr ((splitCommas f.rule_id_filter).map (fun seg => .str (trimStr seg))))])]) ∧
    (f.rule_id_filter.toList.contains ',' = false →
      f.rule_id_filter.toList.contains '*' = true →
      ruleIdClause f.rule_id_filter =
        .obj [("wildcard", .obj [("rule.id", .obj [("value", .str f.rule_id_filter)])])]) ∧
    (f.rule_id_filter.toList.contains ',' = false →
      f.rule_id_filter.toList.contains '*' = false →
      ruleIdClause f.rule_id_filter = .obj [("term", .obj [("rule.id", .str f.rule_id_filter)])]) := by
  have hpre : ∀ j ∈ ([timestampClause minutes] ++ [severityQuery f]
      ++ (if f.agent_filter ≠ "" then [agentNameClause f.agent_filter] else [])),
      Json.hasKey "rule.id" j = false := by
    intro j hj
    simp only [List.mem_append] at hj
    rcases hj with (h1 | h1) | h1
    · simp only [List.mem_singleton] at h1; rw [h1]; rfl
    · simp only [List.mem_singleton] at h1; rw [h1]
      exact hasKey_ruleId_severityQuery f
    · rw [mem_ite_singleton h1]; rfl
  have hpost : ∀ j ∈ ((if f.description_filter ≠ "" then [descriptionClause f.description_filter] else [])
      ++ ((if f.mitre_filter ≠ "" then [mitreClause f.mitre_filter] else [])
      ++ (aid.map agentIdClause).toList)),
      Json.hasKey "rule.id" j = false := by
    intro j hj
    simp only [List.mem_append] at hj
    rcases hj with h1 | h1 | h1
    · rw [mem_ite_singleton h1]; rfl
    · rw [mem_ite_singleton h1]; rfl
    · cases aid with
      | some id => simp only [Option.map_some', Option.toList_some, List.mem_singleton] at h1; rw [h1]; rfl
      | none => simp only [Option.map_none', Option.toList_none, List.not_mem_nil] at h1
  have hshape : buildLogsMust aid minutes (some f)
      = ([timestampClause minutes] ++ [severityQuery f]
        ++ (if f.agent_filter ≠ "" then [agentNameClause f.agent_filter] else []))
        ++ [ruleIdClause f.rule_id_filter]
        ++ ((if f.description_filter ≠ "" then [descriptionClause f.description_filter] else [])
        ++ ((if f.mitre_filter ≠ "" then [mitreClause f.mitre_filter] else [])
        ++ (aid.map agentIdClause).toList)) := by
    simp [buildLogsMust, h]
  have hmain := filter_one (Json.hasKey "rule.id")
    ([timestampClause minutes] ++ [severityQuery f]
      ++ (if f.agent_filter ≠ "" then [agentNameClause f.agent_filter] else []))
    _ (ruleIdClause f.rule_id_filter) hpre hpost (hasKey_ruleId_ruleIdClause _)
  refine ⟨rfl, ?_, ?_, ?_, ?_, ?_⟩
  · rw [hshape]; exact hmain.1
  · rw [hshape]; exact hmain.2
  · intro hc
    have hc2 : ',' ∈ f.rule_id_filter.data := by simpa using hc
    simp [ruleIdClause, hc2]
  · intro hc hw
    have hc2 : ',' ∉ f.rule_id_filter.data := by simpa using hc
    have hw2 : '*' ∈ f.rule_id_filter.data := by simpa using hw
    simp [ruleIdClause, hc2, hw2]
  · intro hc hw
    have hc2 : ',' ∉ f.rule_id_filter.data := by simpa using hc
    have hw2 : '*' ∉ f.rule_id_filter.data := by simpa using hw
    simp [ruleIdClause, hc2, hw2]

/-- C7 witness: the rule-id facts at a concrete comma-separated filter. -/
theorem get_logs_rule_id_clause_witness :
    (buildLogsMust none 60 (some commaRuleFilter)).countP (Json.hasKey "rule.id") = 1 ∧
    ruleIdClause "100, 200"
      = .obj [("terms", .obj [("rule.id", .arr [.str "100", .str "200"])])] := by
  have hm := get_logs_rule_id_clause none 60 0 25 commaRuleFilter (by decide)
  exact ⟨hm.2.2.1, (hm.2.2.2.1 (by decide)).trans rfl⟩

/-! ## C5 — the vulnerability search operation -/

/-- C5: without a configured search endpoint, `get_vulnerabilities`
errors and issues no search request; otherwise it issues exactly one
request whose query has size 500, a `term` clause on the agent id under
query.bool.must, and an ascending sort on vulnerability.severity; on a
parsed success response the result's `total_affected_items` is
`hits.total.value` and each hit is reshaped with absent
severity/name/version defaulted rather than failing. -/
theorem get_vulnerabilities_spec (cfg : Config) (aid : String)
    (search : Json → HttpOutcome OSVulnerabilityResponse) :
    (cfg.os_url = none →
      get_vulnerabilities cfg aid search = (.error .configError, [])) ∧
    (∀ u, cfg.os_url = some u →
      (get_vulnerabilities cfg aid search).2 = [vulnQuery aid] ∧
      (vulnQuery aid).lookup "size" = some (.num 500) ∧
      Json.lookupPath (vulnQuery aid) ["query", "bool", "must"]
        = some (.arr [.obj [("term", .obj [("agent.id", .str aid)])]]) ∧
      (vulnQuery aid).lookup "sort"
        = some (.arr [.obj [("vulnerability.severity", .obj [("order", .str "asc")])]]) ∧
      (∀ st osr text, search (vulnQuery aid) = .response st (some osr) text →
        isSuccessStatus st = true →
        (get_vulnerabilities cfg aid search).1 =
          .ok { data := { affected_items := osr.hits.hits.map convertVulnHit,
                          total_affected_items := osr.hits.total.value } })) ∧
    (∀ hit, (convertVulnHit hit).cve = hit.source.vulnerability.id ∧
      (convertVulnHit hit).severity = hit.source.vulnerability.severity.getD "-" ∧
      (convertVulnHit hit).title = hit.source.vulnerability.description ∧
      (convertVulnHit hit).package = hit.source.package.map (fun p =>
        { name := p.name.getD "", version := p.version.getD "", architecture := none }) ∧
      (convertVulnHit hit).name = hit.source.package.bind (fun p => p.name) ∧
      (convertVulnHit hit).version = hit.source.package.bind (fun p => p.version)) := by
  refine ⟨?_, ?_, ?_⟩
  · intro h; simp [get_vulnerabilities, h]
  · intro u hu
    refine ⟨?_, rfl, rfl, rfl, ?_⟩
    · cases hs : search (vulnQuery aid) with
      | transportError => simp [get_vulnerabilities, hu, hs]
      | response st parsed text =>
        cases parsed <;> by_cases hst : isSuccessStatus st <;>
          simp [get_vulnerabilities, hu, hs, hst]
    · intro st osr text hs hst
      simp [get_vulnerabilities, hu, hs, hst]
  · intro hit
    exact ⟨rfl, rfl, rfl, rfl, rfl, rfl⟩

/-- C5 witness: a response with `hits.total.value = 2` and one hit with
every optional field absent yields a domain result with
`total_affected_items = 2` and defaulted fields, and a missing search
endpoint yields the configuration error. -/
theorem get_vulnerabilities_spec_witness :
    (get_vulnerabilities c5Config "005" c5Search).1 =
      .ok { data := { affected_items := [c5ExpectedFull, c5ExpectedBare]
                      total_affected_items := 2 } } ∧
    (get_vulnerabilities { c5Config with os_url := none } "005" c5Search).1
      = .error .configError := by
  constructor
  · exact (((get_vulnerabilities_spec c5Config "005" c5Search).2.1
      "https://search:9200" rfl).2.2.2.2 200 c5Response "" rfl rfl).trans rfl
  · have h := (get_vulnerabilities_spec { c5Config with os_url := none } "005" c5Search).1 rfl
    rw [h]

/-! ## C8 — the agent summary -/

/-- The counting loop never touches `total`. -/
theorem summarize_foldl_total (agents : List WazuhAgent) (acc : AgentSummary) :
    (agents.foldl summarizeStep acc).total = acc.total := by
  induction agents generalizing acc with
  | nil => rfl
  | cons a l ih =>
    simp only [List.foldl_cons]
    unfold summarizeStep
    split <;> exact ih _

/-- The counting loop adds the number of "active" agents to `active`. -/
theorem summarize_foldl_active (agents : List WazuhAgent) (acc : AgentSummary) :
    (agents.foldl summarizeStep acc).active
      = acc.active + agents.countP (fun a => a.status == "active") := by
  induction agents generalizing acc with
  | nil => simp
  | cons a l ih =>
    simp only [List.foldl_cons, List.countP_cons]
    unfold summarizeStep
    split <;> refine (ih _).trans ?_ <;> simp_all <;> omega

/-- The counting loop adds the number of "disconnected" agents to
`disconnected`. -/
theorem summarize_foldl_disconnected (agents : List WazuhAgent) (acc : AgentSummary) :
    (agents.foldl summarizeStep acc).disconnected
      = acc.disconnected + agents.countP (fun a => a.status == "disconnected") := by
  induction agents generalizing acc with
  | nil => simp
  | cons a l ih =>
    simp only [List.foldl_cons, List.countP_cons]
    unfold summarizeStep
    split <;> refine (ih _).trans ?_ <;> simp_all <;> omega

/-- The counting loop adds the number of "never_connected" agents to
`never_connected`. -/
theorem summarize_foldl_never (agents : List WazuhAgent) (acc : AgentSummary) :
    (agents.foldl summarizeStep acc).never_connected
      = acc.never_connected + agents.countP (fun a => a.status == "never_connected") := by
  induction agents generalizing acc with
  | nil => simp
  | cons a l ih =>
    simp only [List.foldl_cons, List.countP_cons]
    unfold summarizeStep
    split <;> refine (ih _).trans ?_ <;> simp_all <;> omega

/-- The three buckets are mutually exclusive, so their counts add up to
the count of agents carrying any of the three statuses. -/
theorem countP_status_tri (l : List WazuhAgent) :
    l.countP (fun a => a.status == "active")
      + l.countP (fun a => a.status == "disconnected")
      + l.countP (fun a => a.status == "never_connected")
      = l.countP (fun a => a.status == "active" || a.status == "disconnected"
          || a.status == "never_connected") := by
  induction l with
  | nil => rfl
  | cons a l ih =>
    simp only [List.countP_cons]
    by_cases h1 : a.status = "active" <;> by_cases h2 : a.status = "disconnected" <;>
      by_cases h3 : a.status = "never_connected" <;> simp_all <;> omega

/-- C8: `get_summary` fetches the page at offset 0, limit 500 and, for
every response to that fetch, produces a summary whose three buckets
count exactly the agents carrying that status string, whose buckets
never count any other status, and whose total is the backend-reported
`total_affected_items`. -/
theorem get_summary_counts (cfg : Config)
    (fetch : String → Except ApiError WazuhAgentsResponse)
    (resp : WazuhAgentsResponse)
    (h : fetch (listAgentsUrl cfg none 0 500) = .ok resp) :
    get_summary cfg fetch = .ok (summarize resp) ∧
    (summarize resp).total = resp.data.total_affected_items ∧
    (summarize resp).active
      = resp.data.affected_items.countP (fun a => a.status == "active") ∧
    (summarize resp).disconnected
      = resp.data.affected_items.countP (fun a => a.status == "disconnected") ∧
    (summarize resp).never_connected
      = resp.data.affected_items.countP (fun a => a.status == "never_connected") ∧
    (summarize resp).active + (summarize resp).disconnected
        + (summarize resp).never_connected
      = resp.data.affected_items.countP (fun a => a.status == "active"
          || a.status == "disconnected" || a.status == "never_connected") := by
  have e : summarize resp = resp.data.affected_items.foldl summarizeStep
      { total := resp.data.total_affected_items
        active := 0, disconnected := 0, never_connected := 0 } := rfl
  have hT := summarize_foldl_total resp.data.affected_items
    { total := resp.data.total_affected_items
      active := 0, disconnected := 0, never_connected := 0 }
  have hA := summarize_foldl_active resp.data.affected_items
    { total := resp.data.total_affected_items
      active := 0, disconnected := 0, never_connected := 0 }
  have hD := summarize_foldl_disconnected resp.data.affected_items
    { total := resp.data.total_affected_items
      active := 0, disconnected := 0, never_connected := 0 }
  have hN := summarize_foldl_never resp.data.affected_items
    { total := resp.data.total_affected_items
      active := 0, disconnected := 0, never_connected := 0 }
  refine ⟨by simp [get_summary, h], ?_, ?_, ?_, ?_, ?_⟩
  · rw [e]; simpa using hT
  · rw [e]; simpa using hA
  · rw [e]; simpa using hD
  · rw [e]; simpa using hN
  · rw [e, hA, hD, hN]
    simpa using countP_status_tri resp.data.affected_items

/-- C8 witness: the summary of a concrete page with one agent per
recognized status, one unrecognized status, and backend total 57. -/
theorem get_summary_counts_witness :
    get_summary c5Config (fun _ => .ok c8Response)
      = .ok { total := 57, active := 1, disconnected := 1, never_connected := 1 } := by
  have h := (get_summary_counts c5Config (fun _ => .ok c8Response) c8Response rfl).1
  rw [h]
  rfl

/-! ## C9 — the list-agents URL and the group "all" -/

/-- C9: `list_agents` with group `Some "all"` builds exactly the URL it
builds with group `None`; the group parameter is appended exactly for a
supplied group other than "all". -/
theorem listAgentsUrl_all_eq_none (cfg : Config) (offset limit : Nat) :
    listAgentsUrl cfg (some "all") offset limit = listAgentsUrl cfg none offset limit ∧
    (∀ g : String, g ≠ "all" →
      listAgentsUrl cfg (some g) offset limit
        = listAgentsUrl cfg none offset limit ++ "&group=" ++ g) := by
  constructor
  · simp [listAgentsUrl]
  · intro g hg; simp [listAgentsUrl, hg]

/-- C9 witness: the equation at concrete arguments and a concrete
non-"all" group. -/
theorem listAgentsUrl_all_eq_none_witness :
    listAgentsUrl c5Config (some "all") 0 500 = listAgentsUrl c5Config none 0 500 ∧
    listAgentsUrl c5Config (some "web") 0 500
      = listAgentsUrl c5Config none 0 500 ++ "&group=" ++ "web" :=
  ⟨(listAgentsUrl_all_eq_none c5Config 0 500).1,
   (listAgentsUrl_all_eq_none c5Config 0 500).2 "web" (by decide)⟩

/-! ## C10 — authenticate leaves the credential cell unchanged on error -/

/-- C10: whenever `authenticate` fails — transport failure, non-success
status, or body deserialization failure — the token cell keeps exactly
its previous content; the cell is written only when a token was
extracted, and then it holds exactly that token. -/
theorem authenticate_cell_on_error (out : AuthOutcome) (cell : Option String) :
    (∀ e, (authenticate out cell).1 = .error e → (authenticate out cell).2 = cell) ∧
    (∀ tok, (authenticate out cell).1 = .ok tok → (authenticate out cell).2 = some tok) := by
  cases out with
  | transportError => simp [authenticate]
  | response status token? =>
    by_cases hst : isSuccessStatus status
    · cases token? <;> simp [authenticate, hst]
    · simp [authenticate, hst]

/-- C10 witness: a 500 response with a parseable body leaves a populated
cell untouched, and a successful response overwrites it. -/
theorem authenticate_cell_on_error_witness :
    (authenticate (.response 500 (some "fresh")) (some "old")).2 = some "old" ∧
    (authenticate (.response 200 (some "fresh")) (some "old")).2 = some "fresh" :=
  ⟨(authenticate_cell_on_error (.response 500 (some "fresh")) (some "old")).1
      (.authFailed 500) rfl,
   (authenticate_cell_on_error (.response 200 (some "fresh")) (some "old")).2
      "fresh" rfl⟩

/-! ## C1 — the 401 reauthenticate-and-retry of `request` -/

/-- C1: when the first response of a `request` call is 401, the gateway
performs exactly one reauthentication and — once that reauthentication
yields a token — exactly one retry with the same method, url and body,
with no further authentication or send events; a non-success status on
the retry (a second 401 included) makes the call return an error, and a
failing reauthentication itself makes the call return that error with no
retry sent. -/
theorem request_401_single_retry
    (env : GatewayEnv) (st : GatewayState) (method url : String) (body : Option Json)
    (t0 : String) (st1 : GatewayState) (evs0 : List GatewayEvent)
    (htok : getTokenGw env st = (.ok t0, st1, evs0))
    (txt : String)
    (h401 : env.sendOutcome st1.nSend = .response 401 txt) :
    (∀ tk cell,
      authenticate (env.authOutcome st1.nAuth) st1.token = (.ok tk, cell) →
      (requestGw env st method url body).2.2
        = evs0 ++ [.send method url body, .auth, .send method url body] ∧
      (env.sendOutcome (st1.nSend + 1) = .transportError →
        (requestGw env st method url body).1 = .error .transport) ∧
      (∀ s2 t2, env.sendOutcome (st1.nSend + 1) = .response s2 t2 →
        (isSuccessStatus s2 = true → (requestGw env st method url body).1 = .ok (s2, t2)) ∧
        (isSuccessStatus s2 = false →
          (requestGw env st method url body).1 = .error (.requestFailed 401 t2)))) ∧
    (∀ e cell,
      authenticate (env.authOutcome st1.nAuth) st1.token = (.error e, cell) →
      (requestGw env st method url body).2.2 = evs0 ++ [.send method url body, .auth] ∧
      (requestGw env st method url body).1 = .error e) := by
  constructor
  · intro tk cell hauth
    cases hs2 : env.sendOutcome (st1.nSend + 1) with
    | transportError =>
      refine ⟨?_, ?_, ?_⟩
      · simp [requestGw, htok, h401, runAuthenticate, hauth, hs2]
      · intro _
        simp [requestGw, htok, h401, runAuthenticate, hauth, hs2]
      · intro s2 t2 h2
        cases h2
    | response s2 t2 =>
      refine ⟨?_, ?_, ?_⟩
      · by_cases hsucc : isSuccessStatus s2 <;>
          simp [requestGw, htok, h401, runAuthenticate, hauth, hs2, hsucc]
      · intro h2
        cases h2
      · intro s2' t2' h2
        injection h2 with e1 e2
        subst e1
        subst e2
        constructor
        · intro hsucc
          simp [requestGw, htok, h401, runAuthenticate, hauth, hs2, hsucc]
        · intro hsucc
          simp [requestGw, htok, h401, runAuthenticate, hauth, hs2, hsucc]
  · intro e cell hauth
    constructor <;> simp [requestGw, htok, h401, runAuthenticate, hauth]

/-- C1 witness: cached token, 401 on the first send, successful
reauthentication, 401 again on the retry: the trace is exactly one send,
one reauthentication, one retry, and the call errors. -/
theorem request_401_single_retry_witness :
    (requestGw c1Env c1St "GET" "https://manager:55000/agents" none).2.2
      = [.send "GET" "https://manager:55000/agents" none, .auth,
         .send "GET" "https://manager:55000/agents" none] ∧
    (requestGw c1Env c1St "GET" "https://manager:55000/agents" none).1
      = .error (.requestFailed 401 "unauth2") := by
  have h := request_401_single_retry c1Env c1St "GET" "https://manager:55000/agents" none
    "tok0" c1St [] rfl "unauth" rfl
  have h2 := h.1 "tok2" (some "tok2") rfl
  exact ⟨by simpa using h2.1, (h2.2.2 401 "unauth2" rfl).2 rfl⟩

/-! ## C2 — the reducer's last-writer-wins replacement -/

/-- C2 counterexample: `Notification` messages target the notification
slice but append to it instead of replacing it: draining A then B leaves
both notifications, so the final slice is not B's payload alone and
differs from the state produced by draining B alone. -/
theorem drain_notification_refutes_claim :
    targetSlice (.notification "a" .info) = targetSlice (.notification "b" .info) ∧
    (drainUpdates 0 initialAppState
        [.notification "a" .info, .notification "b" .info]).notifications
      = [{ message := "a", level := .info, timestamp := 0 },
         { message := "b", level := .info, timestamp := 0 }] ∧
    ¬ agreesOn (targetSlice (.notification "b" .info))
        (drainUpdates 0 initialAppState [.notification "a" .info, .notification "b" .info])
        (drainUpdates 0 initialAppState [.notification "b" .info]) := by
  refine ⟨rfl, rfl, ?_⟩
  intro hagree
  have h : ([{ message := "a", level := .info, timestamp := 0 },
             { message := "b", level := .info, timestamp := 0 }] : List AppNotification)
      = [{ message := "b", level := .info, timestamp := 0 }] := hagree
  simp at h

/-- C2 (amended: Notification messages append to the notification list
rather than replacing it, and agent-list payloads are stored sorted by
the current sort column and order — still determined by the last message
alone): the drain applies messages to the state in receive order (it is
a left fold, so draining a concatenation drains the pieces in order),
and for any two same-slice messages A then B with a non-notification
target, the final slice equals the slice after draining B alone — B's
payload with no merge of A — which is B's payload itself for every slice
but the agent list, and the sorted payload there. -/
theorem drain_last_writer_wins (now : Nat) (s : AppState) (A B : DataUpdate)
    (hsame : targetSlice A = targetSlice B)
    (hnot : targetSlice B ≠ StateSlice.notifications) :
    agreesOn (targetSlice B) (drainUpdates now s [A, B]) (drainUpdates now s [B]) ∧
    (∀ us vs : List DataUpdate,
      drainUpdates now s (us ++ vs) = drainUpdates now (drainUpdates now s us) vs) ∧
    (match B with
     | .agents p => (drainUpdates now s [A, B]).agents
        = sortAgents s.sort_column s.sort_order p
     | .groupAgents p => (drainUpdates now s [A, B]).agents
        = sortAgents s.sort_column s.sort_order p
     | .groups p => (drainUpdates now s [A, B]).groups = p
     | .securityEvents p => (drainUpdates now s [A, B]).logs = p
     | .vulnSummary p => (drainUpdates now s [A, B]).vuln_summary = p
     | .threatStats p => (drainUpdates now s [A, B]).threat_stats = p
     | .agentHardware p => (drainUpdates now s [A, B]).hardware = some p
     | .agentProcesses p => (drainUpdates now s [A, B]).processes = p
     | .agentPrograms p => (drainUpdates now s [A, B]).programs = p
     | .agentVulnerabilities p => (drainUpdates now s [A, B]).vulnerabilities = p
     | .agentLogs p => (drainUpdates now s [A, B]).agent_logs = p
     | .agentConfig p => (drainUpdates now s [A, B]).agent_config = some p
     | .alertHistory p => (drainUpdates now s [A, B]).alert_buckets = p
     | .topAgents p => (drainUpdates now s [A, B]).top_agents = p
     | .notification _ _ => True
     | .errorMsg m => (drainUpdates now s [A, B]).error_message = some m
     | .errorPopup t m => (drainUpdates now s [A, B]).popup_mode = .errorPopup t m) := by
  refine ⟨?_, ?_, ?_⟩
  · cases A <;> cases B <;>
      simp_all [drainUpdates, applyUpdate, targetSlice, agreesOn]
  · intro us vs
    simp [drainUpdates, List.foldl_append]
  · cases A <;> cases B <;>
      simp_all [drainUpdates, applyUpdate, targetSlice]

/-- C2 witness: two group-list updates drained in order leave exactly the
second payload. -/
theorem drain_last_writer_wins_witness :
    agreesOn (targetSlice (.groups [{ name := "g2", count := some 3 }]))
      (drainUpdates 0 initialAppState
        [.groups [{ name := "g1", count := none }],
         .groups [{ name := "g2", count := some 3 }]])
      (drainUpdates 0 initialAppState [.groups [{ name := "g2", count := some 3 }]]) :=
  (drain_last_writer_wins 0 initialAppState
    (.groups [{ name := "g1", count := none }])
    (.groups [{ name := "g2", count := some 3 }]) rfl (by decide)).1

end WazuhTui
